import Mathlib

/-!
Verification of the supervisor side (`Lord`) of the multiprocessing
supervision core in `datautils/structures/mp/lord.py`.

The embedding models the `Lord` class: its cached `_state`, its process
handle, its callback registry (`callbacks` / `_cbindex`), and the
supervisor end of the duplex channel.  Interaction with the operating
system (whether the child process is alive at a given `is_alive()` call,
and which message, if any, `pipe.poll`/`pipe.recv` yields at a given
`update()` call) is passed in explicitly as input, so every method is a
pure function of the lord and those observations.

Invoking a Python callback is an external side effect; callbacks are
identified by opaque tokens (`Nat`) and `update` returns the list of
invocations it performs, in order, each with its arguments.
-/

/-- A Python value as it appears in this protocol: `None`, a string,
or an int.  Equality between values of different constructors is `False`,
matching CPython cross-type `==` for these types. -/
inductive PyVal where
  | none
  | str (s : String)
  | int (n : Int)
deriving DecidableEq

/-- Keyword arguments: an ordered mapping from names to values. -/
abbrev Kwargs := List (String × PyVal)

/-- The wire unit: `lord.py` sends `(attr, args, kwargs)` tuples over the
pipe (`self.pipe.send((attr, args, kwargs))`), and `update` unpacks the
same triple on receipt. -/
structure Message where
  op : PyVal
  args : List PyVal
  kwargs : Kwargs
deriving DecidableEq

/-- Python exceptions raised by the modelled code paths: the `assert` in
`send`, the `ValueError` in `detatch`, `AttributeError` from `getattr` on
a name the lord does not have, `TypeError` for a malformed call, and
`serf.SerfError` raised by `Lord.error`. -/
inductive PyError where
  | assertionError
  | valueError (msg : String)
  | attributeError (name : String)
  | typeError
  | serfError (args : List PyVal) (kwargs : Kwargs)
deriving DecidableEq

deriving instance DecidableEq for Except

/-- A value stored in `self.callbacks`.  `update` dispatches on the
value's runtime type (`isinstance(cb_group, dict)` / `list` / `callable`),
so the model keeps all three shapes.  Callbacks are opaque tokens. -/
inductive CbGroup where
  | dict (entries : List (Nat × Nat))
  | list (cbs : List Nat)
  | fn (c : Nat)
deriving DecidableEq

/-- One callback invocation performed by `update`: which callback token
was called, and with which positional/keyword arguments. -/
structure CbCall where
  cb : Nat
  args : List PyVal
  kwargs : Kwargs
deriving DecidableEq

/-- CPython `==` between a registry value (a dict, list, or function) and
a `str`: always `False`, since none of these types compares equal to a
string. `attach` evaluates `self.callbacks[callback] != attr` and
`self.callbacks[attribute] == attr` with such operands. -/
def groupEqStr (_g : CbGroup) (_s : String) : Bool := false

/-- CPython `==` between a registry value (a dict, list, or function) and
an `int`: always `False`.  `detatch` evaluates
`self.callbacks[a] == cbid` with such operands. -/
def groupEqNat (_g : CbGroup) (_n : Nat) : Bool := false

/-- `d[cbid] = func` on a dict value; on a non-dict value item assignment
would raise, but every use below is guarded by `groupEqStr`, which never
holds, so the branch is unreachable and modelled as the identity. -/
def dictSet (g : CbGroup) (cbid func : Nat) : CbGroup :=
  match g with
  | .dict entries =>
    if entries.any (fun e => e.1 = cbid) then
      .dict (entries.map (fun e => if e.1 = cbid then (cbid, func) else e))
    else .dict (entries ++ [(cbid, func)])
  | g => g

/-- `del d[cbid]` on a dict value; unreachable for the same reason as
`dictSet` (guarded by `groupEqNat`). -/
def dictDel (g : CbGroup) (cbid : Nat) : CbGroup :=
  match g with
  | .dict entries => .dict (entries.filter (fun e => ¬ e.1 = cbid))
  | g => g

/-- The supervisor (`class Lord`).  `_state` and `_cbindex` keep their
source names; `process : Bool` records whether a process handle is held
(`self.process is not None`); `pipe_out` is the sequence of messages the
lord has written to its end of the pipe (`self.pipe.send`). -/
structure Lord where
  _state : PyVal
  process : Bool
  _cbindex : Nat
  callbacks : List (String × CbGroup)
  pipe_out : List Message
deriving DecidableEq

/-- `Lord.__init__`: `_state = None`, `process = None`, `_cbindex = 0`,
`callbacks = {}` (and no pipe yet; `pipe_out` starts empty). -/
def Lord.init : Lord :=
  { _state := PyVal.none, process := false, _cbindex := 0,
    callbacks := [], pipe_out := [] }

/-- `Lord.attach(attr, func)` as committed (the "try instead" body):
first loop sets every existing registry value `v` with `v != attr` to
`{}`; then `cbid = self._cbindex; self._cbindex += 1`; second loop does
`self.callbacks[attribute][cbid] = func` for every value equal to `attr`.
Note neither loop ever inserts a new key into `self.callbacks`. -/
def Lord.attach (l : Lord) (attr : String) (func : Nat) : Lord × Nat :=
  let cbs1 := l.callbacks.map
    (fun kv => if groupEqStr kv.2 attr then kv else (kv.1, CbGroup.dict []))
  let cbid := l._cbindex
  let cbs2 := cbs1.map
    (fun kv => if groupEqStr kv.2 attr then (kv.1, dictSet kv.2 cbid func) else kv)
  ({ l with callbacks := cbs2, _cbindex := l._cbindex + 1 }, cbid)

/-- The loop of `Lord.detatch`: scan the registry in order for a value
`self.callbacks[a] == cbid`; on a hit, `del self.callbacks[a][cbid]` and
stop; `Option.none` means the loop fell through. -/
def detatchLoop : List (String × CbGroup) → Nat → Option (List (String × CbGroup))
  | [], _ => Option.none
  | kv :: rest, cbid =>
    if groupEqNat kv.2 cbid then some ((kv.1, dictDel kv.2 cbid) :: rest)
    else (detatchLoop rest cbid).map (fun tail => kv :: tail)

/-- `Lord.detatch(cbid)` as committed: if the scan falls through, raise
`ValueError("Callback id[%s] not found" % (cbid,))`. -/
def Lord.detatch (l : Lord) (cbid : Nat) : Except PyError Lord :=
  match detatchLoop l.callbacks cbid with
  | some cbs => .ok { l with callbacks := cbs }
  | Option.none =>
    .error (.valueError ("Callback id[" ++ toString cbid ++ "] not found"))

/-- `Lord.state(new_state=None, update=False)` with `update=False`:
`new_state is None` makes it a getter returning `self._state`; otherwise
it sets `self._state = new_state` and returns `None`.  The `update=True`
path calls `self.update()` before reading and is modelled where it is
used, in the wait loop of `start`. -/
def Lord.state (l : Lord) (new_state : PyVal) : Lord × Option PyVal :=
  if new_state = PyVal.none then (l, some l._state)
  else ({ l with _state := new_state }, Option.none)

/-- `Lord.send(attr, *args, **kwargs)`: `assert isinstance(attr, str)`
(an `AssertionError` is raised before anything touches the pipe), then
`self.pipe.send((attr, args, kwargs))`. -/
def Lord.send (l : Lord) (attr : PyVal) (args : List PyVal) (kwargs : Kwargs) :
    Except PyError Lord :=
  match attr with
  | .str _ => .ok { l with pipe_out := l.pipe_out ++ [⟨attr, args, kwargs⟩] }
  | _ => .error .assertionError

/-- Modelled from the spec: `serf.parse_message` is defined in
`datautils/structures/mp/serf.py`, which is not under `src/`.  Per the
spec, every unit sent over the channel is a Message triple
`(operation, args, kwargs)` and the receiving side decides what to do
from `operation` alone; modelled as unpacking the triple, requiring the
operation to be a string name (a non-string operation cannot be fed to
`getattr` and is an error). -/
def parse_message (msg : Message) :
    Except PyError (String × List PyVal × Kwargs) :=
  match msg.op with
  | .str s => .ok (s, msg.args, msg.kwargs)
  | _ => .error .typeError

/-- `getattr(self, attr)(*args, **kwargs)` in `Lord.update`, for the
names a lord can be sent over the wire: `state` (a report sets or reads
the cached state; the two-argument `update=True` form would re-enter
`update` and is not part of the worker protocol, modelled as an error and
never instantiated below) and `error` (raises `serf.SerfError(*args,
**kwargs)`).  `send` is an attribute of the lord too and is dispatched
faithfully.  Any name that is not an attribute of the lord raises
`AttributeError`; the remaining `Lord` methods (`start`, `stop`,
`attach`, `detatch`, `update`) re-enter the supervisor API and are
outside the wire protocol; no theorem below instantiates them. -/
def dispatchSelf (l : Lord) (attr : String) (args : List PyVal) (kwargs : Kwargs) :
    Except PyError Lord :=
  if attr = "state" then
    match args, kwargs with
    | [], [] => .ok (Lord.state l PyVal.none).1
    | [v], [] => .ok (Lord.state l v).1
    | _, _ => .error .typeError
  else if attr = "error" then .error (.serfError args kwargs)
  else if attr = "send" then
    match args with
    | [] => .error .typeError
    | a :: rest => Lord.send l a rest kwargs
  else .error (.attributeError attr)

/-- `attr in self.callbacks` / `self.callbacks[attr]`: first (only)
binding of `attr` in the registry. -/
def findGroup : List (String × CbGroup) → String → Option CbGroup
  | [], _ => Option.none
  | kv :: rest, a => if kv.1 = a then some kv.2 else findGroup rest a

/-- The fan-out of one registry value in `Lord.update`: a dict group has
`cb_group.values()` called in insertion order, a list group is iterated,
and a bare callable is called once. -/
def invokeGroup (g : CbGroup) (args : List PyVal) (kwargs : Kwargs) : List CbCall :=
  match g with
  | .dict entries => entries.map (fun e => ⟨e.2, args, kwargs⟩)
  | .list cbs => cbs.map (fun c => ⟨c, args, kwargs⟩)
  | .fn c => [⟨c, args, kwargs⟩]

/-- The callback block of `Lord.update`: `if attr in self.callbacks:`
invoke that group; a missing key is skipped silently. -/
def fanout (cbs : List (String × CbGroup)) (attr : String)
    (args : List PyVal) (kwargs : Kwargs) : List CbCall :=
  match findGroup cbs attr with
  | some g => invokeGroup g args kwargs
  | Option.none => []

/-- `Lord.update(timeout)`: `pending` is the outcome of
`self.pipe.poll(timeout)` / `self.pipe.recv()` — `Option.none` when no
message arrived within the timeout (the call returns with no effect).
Otherwise the one received message is parsed, dispatched on the lord
itself via `getattr`, and then fanned out to the registered callbacks.
Returns the updated lord and the callback invocations performed. -/
def Lord.update (l : Lord) (pending : Option Message) :
    Except PyError (Lord × List CbCall) :=
  match pending with
  | Option.none => .ok (l, [])
  | some msg =>
    match parse_message msg with
    | .error e => .error e
    | .ok (attr, args, kwargs) =>
      match dispatchSelf l attr args kwargs with
      | .error e => .error e
      | .ok l' => .ok (l', fanout l'.callbacks attr args kwargs)

/-- The wait loop of `Lord.start`:
`while self.state(update=True) is None: self.update()`.
Each loop test performs one `update` (inside `state(update=True)`) and
then reads `self._state`; each loop body performs one more `update`.
The script supplies each `update`'s pending message; when it is
exhausted while the loop is still running, no return was observed and
the result is `Option.none`. -/
def startLoop : List (Option Message) → Lord → Except PyError (Option Lord)
  | [], _ => .ok Option.none
  | [p], l =>
    match Lord.update l p with
    | .error e => .error e
    | .ok (l', _) =>
      if l'._state = PyVal.none then .ok Option.none else .ok (some l')
  | p :: p2 :: rest, l =>
    match Lord.update l p with
    | .error e => .error e
    | .ok (l', _) =>
      if l'._state = PyVal.none then
        match Lord.update l' p2 with
        | .error e => .error e
        | .ok (l'', _) => startLoop rest l''
      else .ok (some l')

/-- `Lord.start(serf_class, args, kwargs, wait=True)`: if
`self.process is not None and self.process.is_alive()`, return at once
(`procAlive` is that `is_alive()` observation).  Otherwise create a fresh
pipe (so `pipe_out` restarts empty), spawn the serf process and record
the handle; the construction payload travels to the child and does not
change the lord.  With `wait`, run the wait loop. -/
def Lord.start (l : Lord) (procAlive : Bool) (wait : Bool)
    (script : List (Option Message)) : Except PyError (Option Lord) :=
  if l.process ∧ procAlive then .ok (some l)
  else
    let l1 := { l with pipe_out := [], process := true }
    if wait then startLoop script l1 else .ok (some l1)

/-- The drain loop of `Lord.stop`:
`while self.process.is_alive(): self.update()`.
Each script entry is one loop test: the `is_alive()` observation and, if
the loop continues, the pending message for the `update` call.  An
exhausted script means termination of the loop was not observed. -/
def stopLoop : List (Bool × Option Message) → Lord → Except PyError (Option Lord)
  | [], _ => .ok Option.none
  | (alive, p) :: rest, l =>
    if alive then
      match Lord.update l p with
      | .error e => .error e
      | .ok (l', _) => stopLoop rest l'
    else .ok (some l)

/-- `Lord.stop(wait=True)`: return if `self.process is None`; if the
process is no longer alive (`procAlive` is the entry `is_alive()`
observation), clear the handle and return; otherwise `self.send('exit')`,
return at once when `wait` is false, and with `wait` drain until the
process is not alive, then `join()` and clear the handle. -/
def Lord.stop (l : Lord) (procAlive : Bool) (wait : Bool)
    (script : List (Bool × Option Message)) : Except PyError (Option Lord) :=
  if l.process = false then .ok (some l)
  else if procAlive = false then .ok (some { l with process := false })
  else
    match Lord.send l (PyVal.str "exit") [] [] with
    | .error e => .error e
    | .ok l1 =>
      if wait = false then .ok (some l1)
      else
        match stopLoop script l1 with
        | .error e => .error e
        | .ok Option.none => .ok Option.none
        | .ok (some l2) => .ok (some { l2 with process := false })

/-- A registry operation in a client trace: one `attach` or one
`detatch` call. -/
inductive LordOp where
  | attach (attr : String) (func : Nat)
  | detatch (cbid : Nat)

/-- Number of `attach` calls in a trace. -/
def countAttach : List LordOp → Nat
  | [] => 0
  | .attach _ _ :: rest => countAttach rest + 1
  | .detatch _ :: rest => countAttach rest

/-- Run a trace of registry operations, collecting the subscription id
returned by each `attach`.  `detatch` mutates nothing before raising its
`ValueError` (its delete branch is unreachable), so a caller that catches
the exception continues with the lord unchanged. -/
def runOps : Lord → List LordOp → Lord × List Nat
  | l, [] => (l, [])
  | l, .attach a f :: rest =>
    let r := Lord.attach l a f
    let rs := runOps r.1 rest
    (rs.1, r.2 :: rs.2)
  | l, .detatch c :: rest =>
    let l' := match Lord.detatch l c with | .ok l2 => l2 | .error _ => l
    runOps l' rest

/-! ## Helper lemmas -/

theorem detatchLoop_eq_none (cbs : List (String × CbGroup)) (c : Nat) :
    detatchLoop cbs c = Option.none := by
  induction cbs with
  | nil => rfl
  | cons kv rest ih => simp [detatchLoop, groupEqNat, ih]

theorem detatch_eq_error (l : Lord) (c : Nat) :
    Lord.detatch l c =
      .error (.valueError ("Callback id[" ++ toString c ++ "] not found")) := by
  simp [Lord.detatch, detatchLoop_eq_none]

theorem attach_fst_cbindex (l : Lord) (a : String) (f : Nat) :
    ((Lord.attach l a f).1)._cbindex = l._cbindex + 1 := rfl

theorem attach_snd (l : Lord) (a : String) (f : Nat) :
    (Lord.attach l a f).2 = l._cbindex := rfl

theorem runOps_ids (ops : List LordOp) : ∀ l : Lord,
    (runOps l ops).2 = List.range' l._cbindex (countAttach ops) := by
  induction ops with
  | nil => intro l; rfl
  | cons op rest ih =>
    intro l
    cases op with
    | attach a f =>
      simp only [runOps, countAttach, ih, attach_fst_cbindex, attach_snd,
        List.range'_succ]
    | detatch c =>
      simp only [runOps, detatch_eq_error, countAttach, ih]

/-! ## Claims -/

/-- C1: the committed `attach` registers nothing — `self.callbacks` starts
empty and `attach` only rewrites values of keys that already exist, so the
registry stays empty — and hence a subsequent `update` draining a message
whose operation equals the event name invokes no callback at all, against
both the spec and the original (commented-out) implementation that the
"try instead" code replaced.  Concretely: a fresh lord, `attach("send",
f)` returning id 0, then one `update` of the message `("send", ("ping",),
{})`, performs zero callback invocations. -/
theorem claim_C1_attach_registers_nothing :
    (Lord.attach Lord.init "send" 7).2 = 0 ∧
    ((Lord.attach Lord.init "send" 7).1).callbacks = [] ∧
    Lord.update (Lord.attach Lord.init "send" 7).1
        (some ⟨PyVal.str "send", [PyVal.str "ping"], []⟩) =
      .ok ({ Lord.init with pipe_out := [⟨PyVal.str "ping", [], []⟩], _cbindex := 1 }, []) := by
  decide

/-- C2: the committed `detatch` compares each registry value (a callback
group) to the id with `self.callbacks[a] == cbid`, which is never true,
so `detatch` raises `ValueError` for every id — including the id 0 just
returned by `attach` — instead of removing that subscription. -/
theorem claim_C2_detatch_always_fails :
    (Lord.attach Lord.init "evt" 5).2 = 0 ∧
    Lord.detatch (Lord.attach Lord.init "evt" 5).1 0 =
      .error (.valueError "Callback id[0] not found") := by
  decide

/-- C3: over any trace of `attach`/`detatch` calls on a fresh lord, the
subscription ids handed out by `attach` are strictly increasing in trace
order — hence pairwise distinct, monotonically assigned, and never
reused, even after a `detatch` of an earlier id (`_cbindex` only ever
increments and `detatch` never touches it). -/
theorem claim_C3_ids_strictly_increasing (ops : List LordOp) :
    ((runOps Lord.init ops).2).Pairwise (· < ·) := by
  rw [runOps_ids]
  exact List.pairwise_lt_range' Lord.init._cbindex (countAttach ops)

/-- C4: `send(operation, *args, **kwargs)` with a string operation writes
exactly the triple `(operation, args, kwargs)` to the channel; with a
non-string operation the `assert isinstance(attr, str)` fails with an
`AssertionError` before anything is transmitted (the raising result
carries no lord, so the pipe is untouched). -/
theorem claim_C4_send (l : Lord) (attr : PyVal) (args : List PyVal)
    (kwargs : Kwargs) :
    (∀ s, attr = PyVal.str s →
      Lord.send l attr args kwargs =
        .ok { l with pipe_out := l.pipe_out ++ [⟨attr, args, kwargs⟩] }) ∧
    ((∀ s, attr ≠ PyVal.str s) →
      Lord.send l attr args kwargs = .error .assertionError) := by
  cases attr with
  | str s => exact ⟨fun _ _ => rfl, fun h => absurd rfl (h s)⟩
  | none => exact ⟨fun _ h => PyVal.noConfusion h, fun _ => rfl⟩
  | int n => exact ⟨fun _ h => PyVal.noConfusion h, fun _ => rfl⟩

/-- Witness for C4 at the string operation `"go"` and the non-string
operation `3`. -/
theorem claim_C4_witness :
    Lord.send Lord.init (PyVal.str "go") [] [] =
      .ok { Lord.init with pipe_out := [⟨PyVal.str "go", [], []⟩] } ∧
    Lord.send Lord.init (PyVal.int 3) [] [] = .error .assertionError :=
  ⟨(claim_C4_send Lord.init (PyVal.str "go") [] []).1 "go" rfl,
   (claim_C4_send Lord.init (PyVal.int 3) [] []).2
     (fun _ h => PyVal.noConfusion h)⟩

/-- C5 counterexample: a reserved state report can carry the value
`None`, and `update` does not replace the cached state with it —
`state(None)` is a getter.  With cached state `5`, draining the report
`("state", (None,), {})` leaves the cached state at `5`, not the reported
value `None`. -/
theorem claim_C5_counterexample :
    Lord.update { Lord.init with _state := PyVal.int 5 }
        (some ⟨PyVal.str "state", [PyVal.none], []⟩) =
      .ok ({ Lord.init with _state := PyVal.int 5 }, []) ∧
    ({ Lord.init with _state := PyVal.int 5 } : Lord)._state ≠ PyVal.none := by
  decide

/-- C5 amended: for every pending reserved state report carrying a
non-`None` value `v`, one `update` call replaces the cached state with
`v`, and a subsequent `state()` call returns `v`. -/
theorem claim_C5_state_report (l : Lord) (v : PyVal) (h : v ≠ PyVal.none) :
    Lord.update l (some ⟨PyVal.str "state", [v], []⟩) =
      .ok ({ l with _state := v }, fanout l.callbacks "state" [v] []) ∧
    (Lord.state { l with _state := v } PyVal.none).2 = some v := by
  refine ⟨?_, ?_⟩
  · simp [Lord.update, parse_message, dispatchSelf, Lord.state, h]
  · simp [Lord.state]

/-- Witness for C5 amended at `v = 3` on a fresh lord. -/
theorem claim_C5_witness :
    Lord.update Lord.init (some ⟨PyVal.str "state", [PyVal.int 3], []⟩) =
      .ok ({ Lord.init with _state := PyVal.int 3 },
           fanout Lord.init.callbacks "state" [PyVal.int 3] []) ∧
    (Lord.state { Lord.init with _state := PyVal.int 3 } PyVal.none).2 =
      some (PyVal.int 3) :=
  claim_C5_state_report Lord.init (PyVal.int 3) (by decide)

/-- C6: draining a reserved error signal makes `update` call
`self.error(*args, **kwargs)`, which raises `serf.SerfError` with the
signal's payload — the error propagates to `update`'s caller instead of
being dropped. -/
theorem claim_C6_error_surfaced (l : Lord) (args : List PyVal)
    (kwargs : Kwargs) :
    Lord.update l (some ⟨PyVal.str "error", args, kwargs⟩) =
      .error (.serfError args kwargs) := by
  simp [Lord.update, parse_message, dispatchSelf]

/-- C7 counterexample: a fresh lord has an empty callback registry, and
the operation `"ping"` is not reserved; yet draining `("ping", (), {})`
raises `AttributeError` — `update` runs `getattr(self, attr)(*args,
**kwargs)` before the registry is consulted, and `ping` is not an
attribute of the lord. -/
theorem claim_C7_counterexample :
    Lord.init.callbacks = [] ∧
    Lord.update Lord.init (some ⟨PyVal.str "ping", [], []⟩) =
      .error (.attributeError "ping") := by
  decide

/-- C7 amended: a missing registry entry is, by itself, never an error:
whenever the `getattr` dispatch of the drained operation succeeds and the
registry has no entry for it, `update` completes without raising and
performs no callback invocation.  (`update` can still raise — as the
counterexample shows — but only from parsing or dispatching the
operation, never from the registry lookup.) -/
theorem claim_C7_missing_entry_not_error (l l' : Lord) (s : String)
    (args : List PyVal) (kwargs : Kwargs)
    (hd : dispatchSelf l s args kwargs = .ok l')
    (hna : findGroup l'.callbacks s = Option.none) :
    Lord.update l (some ⟨PyVal.str s, args, kwargs⟩) = .ok (l', []) := by
  simp [Lord.update, parse_message, hd, fanout, hna]

/-- Witness for C7 amended: the non-reserved operation `"send"` is an
attribute of the lord, dispatches successfully on a fresh lord whose
registry is empty, and `update` completes with no callback invocation. -/
theorem claim_C7_witness :
    Lord.update Lord.init (some ⟨PyVal.str "send", [PyVal.str "x"], []⟩) =
      .ok ({ Lord.init with pipe_out := [⟨PyVal.str "x", [], []⟩] }, []) :=
  claim_C7_missing_entry_not_error Lord.init
    { Lord.init with pipe_out := [⟨PyVal.str "x", [], []⟩] } "send"
    [PyVal.str "x"] [] (by decide) (by decide)

theorem startLoop_some : ∀ (script : List (Option Message)) (l l' : Lord),
    startLoop script l = .ok (some l') → l'._state ≠ PyVal.none
  | [], l, l' => by simp [startLoop]
  | [p], l, l' => by
    intro h
    simp only [startLoop] at h
    split at h
    · exact absurd h (by simp)
    · split at h
      · exact absurd h (by simp)
      · next hne =>
        simp only [Except.ok.injEq, Option.some.injEq] at h
        exact h ▸ hne
  | p :: p2 :: rest, l, l' => by
    intro h
    simp only [startLoop] at h
    split at h
    · exact absurd h (by simp)
    · split at h
      · split at h
        · exact absurd h (by simp)
        · exact startLoop_some rest _ l' h
      · next hne =>
        simp only [Except.ok.injEq, Option.some.injEq] at h
        exact h ▸ hne

/-- C8 counterexample: with a process already alive, `start(wait=True)`
is a no-op and returns at once even though the cached state is still
`None` (reachable after a `start(wait=False)`): the claim's "whenever
start(wait=True) returns successfully, state() is non-empty" fails on the
no-op path. -/
theorem claim_C8_counterexample :
    Lord.start { Lord.init with process := true } true true [] =
      .ok (some { Lord.init with process := true }) ∧
    ({ Lord.init with process := true } : Lord)._state = PyVal.none := by
  decide

/-- C8 amended: `start` is a no-op (the lord is returned unchanged,
nothing is spawned) when a process handle is held and the process is
alive; and whenever a `start(wait=True)` that was not such a no-op
returns successfully, the cached state is non-`None` — the wait loop
`while self.state(update=True) is None: self.update()` only exits once a
drained state report has made the cached state non-empty. -/
theorem claim_C8_start (l : Lord) (procAlive : Bool)
    (script : List (Option Message)) :
    (l.process = true → procAlive = true →
      ∀ w, Lord.start l procAlive w script = .ok (some l)) ∧
    (¬(l.process = true ∧ procAlive = true) →
      ∀ l', Lord.start l procAlive true script = .ok (some l') →
        l'._state ≠ PyVal.none) := by
  constructor
  · intro h1 h2 w
    simp [Lord.start, h1, h2]
  · intro hno l' h
    simp only [Lord.start, if_neg hno, if_pos trivial, if_true] at h
    exact startLoop_some script _ l' h

/-- Witness for C8: the no-op branch at an alive process, and a
spawning `start(wait=True)` whose script delivers one state report `1`,
after which the cached state is non-empty. -/
theorem claim_C8_witness :
    Lord.start { Lord.init with process := true } true false [] =
      .ok (some { Lord.init with process := true }) ∧
    ({ Lord.init with process := true, _state := PyVal.int 1 } : Lord)._state ≠
      PyVal.none :=
  ⟨(claim_C8_start { Lord.init with process := true } true []).1 rfl rfl false,
   (claim_C8_start Lord.init false
       [some ⟨PyVal.str "state", [PyVal.int 1], []⟩]).2
     (by decide) { Lord.init with process := true, _state := PyVal.int 1 }
     (by decide)⟩

/-- C9: `stop` is a no-op without a process handle; with a handle whose
process already exited it just clears the handle; otherwise it sends the
reserved `exit` operation, returns immediately when `wait` is false, and
with `wait=True`, whenever the drain loop observes the process dead,
joins and clears the handle — leaving a lord on which a subsequent
`start()` spawns successfully (restartability). -/
theorem claim_C9_stop (l : Lord) (procAlive wait : Bool)
    (script : List (Bool × Option Message)) :
    (l.process = false → Lord.stop l procAlive wait script = .ok (some l)) ∧
    (l.process = true → procAlive = false →
      Lord.stop l procAlive wait script =
        .ok (some { l with process := false })) ∧
    (l.process = true → procAlive = true → wait = false →
      Lord.stop l procAlive wait script =
        .ok (some { l with pipe_out :=
          l.pipe_out ++ [⟨PyVal.str "exit", [], []⟩] })) ∧
    (l.process = true → procAlive = true → wait = true →
      ∀ l', Lord.stop l procAlive wait script = .ok (some l') →
        l'.process = false ∧
        ∀ pa, Lord.start l' pa false [] =
          .ok (some { l' with pipe_out := [], process := true })) := by
  refine ⟨?_, ?_, ?_, ?_⟩
  · intro h1
    simp [Lord.stop, h1]
  · intro h1 h2
    simp [Lord.stop, h1, h2]
  · intro h1 h2 h3
    simp [Lord.stop, Lord.send, h1, h2, h3]
  · intro h1 h2 h3 l' h
    simp only [Lord.stop, Lord.send, h1, h2, h3] at h
    simp only [Bool.true_eq_false, if_false, if_neg] at h
    split at h
    · exact absurd h (by simp)
    · exact absurd h (by simp)
    · next l2 heq =>
      simp only [Except.ok.injEq, Option.some.injEq] at h
      subst h
      exact ⟨rfl, fun pa => by simp [Lord.start]⟩

/-- Witness for C9: the no-op branch on a fresh lord, and a full
`stop(wait=True)` on an alive process whose script observes the process
dead at the first loop test: the handle is cleared and a subsequent
`start` spawns. -/
theorem claim_C9_witness :
    Lord.stop Lord.init false true [] = .ok (some Lord.init) ∧
    ({ Lord.init with pipe_out := [⟨PyVal.str "exit", [], []⟩] } : Lord).process =
      false ∧
    Lord.start { Lord.init with pipe_out := [⟨PyVal.str "exit", [], []⟩] }
        false false [] = .ok (some { Lord.init with process := true }) :=
  ⟨(claim_C9_stop Lord.init false true []).1 rfl,
   ((claim_C9_stop { Lord.init with process := true } true true
       [(false, Option.none)]).2.2.2 rfl rfl rfl
     { Lord.init with pipe_out := [⟨PyVal.str "exit", [], []⟩] } (by decide)).1,
   ((claim_C9_stop { Lord.init with process := true } true true
       [(false, Option.none)]).2.2.2 rfl rfl rfl
     { Lord.init with pipe_out := [⟨PyVal.str "exit", [], []⟩] } (by decide)).2
     false⟩

/-- C10: `state(new_state=None)` always acts as a getter: it returns the
cached state and changes nothing, so the cached state can never be set
back to `None` through the state operation; in particular draining a
worker state report whose reported value is `None` leaves the lord — and
hence the cached state — unchanged. -/
theorem claim_C10_state_none_is_getter (l : Lord) :
    Lord.state l PyVal.none = (l, some l._state) ∧
    Lord.update l (some ⟨PyVal.str "state", [PyVal.none], []⟩) =
      .ok (l, fanout l.callbacks "state" [PyVal.none] []) := by
  refine ⟨?_, ?_⟩
  · simp [Lord.state]
  · simp [Lord.update, parse_message, dispatchSelf, Lord.state]
